import Mathlib

/-
Shallow embedding of the pgbenchmark benchmark-execution and metrics engine.

Sources embedded here:
  * pgbenchmark/core/metrics.py    (QueryExecution, BenchmarkResult percentiles,
                                    MetricsCollector lifecycle)
  * pgbenchmark/core/base.py       (BenchmarkConfig.validate)
  * pgbenchmark/benchmarks/single.py   (SingleThreadBenchmark._execute_single_query
                                        retry loop)
  * pgbenchmark/benchmarks/async_bench.py (AsyncBenchmark._execute_query retry loop)
  * pgbenchmark/benchmarks/parallel.py (ParallelBenchmark._calculate_work_distribution)
  * pgbenchmark/benchmarks/stress.py   (StressBenchmark._run_ramp_up step schedule)
  * pgbenchmark/analyzers/statistics.py (StatisticalAnalyzer.analyze outlier path)

Durations and wall-clock quantities are modelled as rationals; Python ints that
can go negative are modelled as Int, loop counters as Nat.
-/

/--
One measured attempt, from the QueryExecution dataclass in core/metrics.py.
The start_time/end_time wall-clock fields and the diagnostic payloads
(explain_plan, buffer_stats, io_stats) of the source dataclass are opaque
external data (clock readings, driver dictionaries) constrained by no claim
and are omitted from the embedding.  duration is the
timedelta(seconds=query_end - query_start) value, in seconds.
-/
structure QueryExecution where
  run_id : Int
  duration : ℚ
  success : Bool
  error : Option String
  deriving DecidableEq, Repr

/-- MetricsCollector state, from core/metrics.py.  Timestamps are clock
readings modelled as rationals. -/
structure MetricsCollector where
  executions : List QueryExecution
  start_time : Option ℚ
  end_time : Option ℚ
  is_collecting : Bool
  deriving DecidableEq, Repr

/-- MetricsCollector.__init__: empty list, no timestamps, not collecting. -/
def MetricsCollector.init : MetricsCollector :=
  { executions := [], start_time := none, end_time := none, is_collecting := false }

/-- MetricsCollector.start: records the begin timestamp (the datetime.now()
reading is passed in as now) and sets _is_collecting.  Nothing else changes. -/
def MetricsCollector.start (now : ℚ) (c : MetricsCollector) : MetricsCollector :=
  { c with start_time := some now, is_collecting := true }

/-- MetricsCollector.end: records the end timestamp and clears
_is_collecting.  Nothing else changes. -/
def MetricsCollector.end_ (now : ℚ) (c : MetricsCollector) : MetricsCollector :=
  { c with end_time := some now, is_collecting := false }

/-- MetricsCollector.add_execution: raises RuntimeError (the collector object
is left unchanged by the raise) unless _is_collecting, else appends. -/
def MetricsCollector.add_execution (e : QueryExecution) (c : MetricsCollector) :
    Except String MetricsCollector :=
  if c.is_collecting then
    .ok { c with executions := c.executions ++ [e] }
  else
    .error "Metrics collector is not started"

/-- MetricsCollector.reset: empties the execution list, clears both
timestamps and the collecting flag. -/
def MetricsCollector.reset (_c : MetricsCollector) : MetricsCollector :=
  MetricsCollector.init

/-- BenchmarkConfig from core/base.py.  number_of_runs, warmup_runs and
retry_on_error are Python ints (possibly negative), timeout is an optional
float (seconds), batch_size an optional int. -/
structure BenchmarkConfig where
  number_of_runs : Int := 100
  warmup_runs : Int := 5
  timeout : Option ℚ := none
  collect_explain : Bool := false
  collect_buffers : Bool := false
  collect_io_timing : Bool := false
  retry_on_error : Int := 3
  batch_size : Option Int := none
  enable_profiling : Bool := false
  deriving DecidableEq, Repr

/-- BenchmarkConfig.validate: the five sequential range checks; the first
failing check raises ValueError with its message. -/
def BenchmarkConfig.validate (c : BenchmarkConfig) : Except String Unit :=
  if c.number_of_runs < 1 then
    .error "number_of_runs must be at least 1"
  else if c.warmup_runs < 0 then
    .error "warmup_runs cannot be negative"
  else if (match c.timeout with | some t => decide (t ≤ 0) | none => false) then
    .error "timeout must be positive"
  else if c.retry_on_error < 0 then
    .error "retry_on_error cannot be negative"
  else if (match c.batch_size with | some b => decide (b ≤ 0) | none => false) then
    .error "batch_size must be positive"
  else
    .ok ()

/-- BaseBenchmark.__init__ (core/base.py): self.config.validate() is called
in the constructor, before any SQL is even set, hence before any query can
execute; on success the benchmark starts with a fresh MetricsCollector. -/
def BaseBenchmark.init (config : BenchmarkConfig) :
    Except String (BenchmarkConfig × MetricsCollector) := do
  config.validate
  pure (config, MetricsCollector.init)

/-- The fixed percentile levels [25, 50, 75, 90, 95, 99, 99.9] iterated in
BenchmarkResult._calculate_percentiles (core/metrics.py). -/
def percentile_levels : List ℚ := [25, 50, 75, 90, 95, 99, 999 / 10]

/-- BenchmarkResult._calculate_percentiles (core/metrics.py): sort ascending,
then for each level p take idx = int(len * p / 100) clamped by
min(idx, len - 1).  Python int() truncates toward zero, which on this
non-negative operand is the floor.  The Python dict keyed by the strings
"p25".."p99.9" is modelled as an association list keyed by the level itself,
built in iteration order by a fold. -/
def BenchmarkResult.calculate_percentiles (durations : List ℚ) : List (ℚ × ℚ) :=
  if durations.isEmpty then
    []
  else
    let sorted_durations := List.insertionSort (fun a b => a ≤ b) durations
    percentile_levels.foldl (fun acc p =>
      let idx := (⌊(sorted_durations.length : ℚ) * p / 100⌋).toNat
      let idx := min idx (sorted_durations.length - 1)
      acc ++ [(p, sorted_durations.getD idx 0)]) []

/-- Nearest-rank percentile as the spec words it: the element of the
ascending-sorted list at index floor(n * p / 100) clamped to n - 1, no
interpolation. -/
def spec_nearest_rank (sorted : List ℚ) (p : ℚ) : ℚ :=
  sorted.getD (min (⌊(sorted.length : ℚ) * p / 100⌋).toNat (sorted.length - 1)) 0

/-- Outcome of one execution attempt against the database, the external
collaborator of the retry loops.  success carries the measured
query_end - query_start elapsed seconds; timeout is
psycopg2.extensions.QueryCanceledError / asyncio.TimeoutError; transient is
asyncpg.PostgresError (a recoverable driver error); other is any other
exception. -/
inductive AttemptOutcome where
  | success (elapsed : ℚ)
  | timeout (msg : String)
  | transient (msg : String)
  | other (msg : String)
  deriving DecidableEq, Repr

/-- An oracle giving the database's outcome for each successive attempt. -/
def oracleOf (l : List AttemptOutcome) : ℕ → AttemptOutcome :=
  fun i => l.getD i (.success 0)

/-- Result of the retry loop of AsyncBenchmark._execute_query: the final
success flag, the error variable, the last query_end - query_start value,
the backoff sleeps performed (each recorded by the retry_count value passed
to asyncio.sleep(0.5 * retry_count), in order), and how many attempts were
made. -/
structure AsyncLoopOut where
  success : Bool
  error : Option String
  qdur : ℚ
  sleeps : List ℕ
  attempts : ℕ
  deriving DecidableEq, Repr

/-- The seconds slept by the backoff call asyncio.sleep(0.5 * retry_count)
recorded in AsyncLoopOut.sleeps. -/
def backoff_seconds (retry_count : ℕ) : ℚ := 1 / 2 * (retry_count : ℚ)

/-- The while loop of AsyncBenchmark._execute_query (async_bench.py,
lines 79-124), one constructor arm per except clause:

  * on success: success = True; break (the error variable is NOT cleared);
  * on asyncio.TimeoutError: error set to "Query timeout: msg",
    query_start = query_end, break (no retry on timeout);
  * on asyncpg.PostgresError: error set, retry_count += 1, and if
    retry_count <= retry_on_error sleep 0.5 * retry_count and loop again,
    else break;
  * on any other exception: error set, break.

Only the transient arm re-enters the loop and it increments retry_count,
so iteration i runs with retry_count = i; fuel = retry_on_error + 1 - i
counts the iterations the while condition retry_count <= retry_on_error
still allows, making the recursion structural.  The fuel = 0 base case is
unreachable from AsyncBenchmark.execute_query below. -/
def AsyncBenchmark.execute_loop (oracle : ℕ → AttemptOutcome)
    (retry_on_error : ℕ) : ℕ → ℕ → Option String → ℚ → List ℕ → AsyncLoopOut
  | 0, i, err, qdur, sleeps => ⟨false, err, qdur, sleeps, i⟩
  | fuel + 1, i, err, _qdur, sleeps =>
    match oracle i with
    | .success elapsed => ⟨true, err, elapsed, sleeps, i + 1⟩
    | .timeout m => ⟨false, some ("Query timeout: " ++ m), 0, sleeps, i + 1⟩
    | .transient m =>
      let retry_count := i + 1
      if retry_count ≤ retry_on_error then
        AsyncBenchmark.execute_loop oracle retry_on_error fuel (i + 1)
          (some m) 0 (sleeps ++ [retry_count])
      else
        ⟨false, some m, 0, sleeps, i + 1⟩
    | .other m => ⟨false, some m, 0, sleeps, i + 1⟩

/-- AsyncBenchmark._execute_query: run the retry loop from retry_count = 0
with no error, then build the single QueryExecution it returns, whose
duration is timedelta(seconds = query_end - query_start). -/
structure AsyncExecOut where
  record : QueryExecution
  sleeps : List ℕ
  attempts : ℕ
  deriving DecidableEq, Repr

/-- AsyncBenchmark._execute_query entry point (one call returns exactly one
QueryExecution record). -/
def AsyncBenchmark.execute_query (oracle : ℕ → AttemptOutcome)
    (retry_on_error : ℕ) (run_id : Int) : AsyncExecOut :=
  let out := AsyncBenchmark.execute_loop oracle retry_on_error
    (retry_on_error + 1) 0 none 0 []
  { record := { run_id := run_id, duration := out.qdur,
                success := out.success, error := out.error }
    sleeps := out.sleeps
    attempts := out.attempts }

/-- Result of the retry loop of SingleThreadBenchmark._execute_single_query:
either the loop broke out and a QueryExecution is built (finished: the
success flag, error variable, last elapsed value and attempts made), or an uncaught
exception propagated out of _execute_single_query (raised), or the given
number of iterations elapsed with the loop still running (still_looping). -/
inductive SingleLoopRes where
  | finished (success : Bool) (error : Option String) (qdur : ℚ) (attempts : ℕ)
  | raised (msg : String)
  | still_looping
  deriving DecidableEq, Repr

/-- The while loop of SingleThreadBenchmark._execute_single_query
(single.py, lines 116-218).  The loop condition is
retry_count <= self.config.retry_on_error, but retry_count is initialized
to 0 and never incremented anywhere in the body, so (retry_on_error being
validated >= 0) the condition is always true and the loop can only be left
by the break on success or by an exception.  The only except clause catches
psycopg2.extensions.QueryCanceledError (timeout): it sets
error = "Query timeout: ..." and falls through to the next iteration - a
timeout IS retried, indefinitely.  Every other exception (including any
transient psycopg2 error) propagates out of the method uncaught.  fuel
bounds how many iterations we unroll; still_looping reports that the loop
had not terminated within fuel iterations. -/
def SingleThreadBenchmark.execute_loop (oracle : ℕ → AttemptOutcome)
    (retry_on_error : ℕ) : ℕ → ℕ → Option String → SingleLoopRes
  | 0, _, _ => .still_looping
  | fuel + 1, i, err =>
    match oracle i with
    | .success elapsed => .finished true err elapsed (i + 1)
    | .timeout m =>
      SingleThreadBenchmark.execute_loop oracle retry_on_error fuel (i + 1)
        (some ("Query timeout: " ++ m))
    | .transient m => .raised m
    | .other m => .raised m

/-- The for-loop of ParallelBenchmark._calculate_work_distribution
(parallel.py, lines 133-152): for i in range(num_processes) append
(i, process_runs, process_warmup, run_offset) and advance run_offset by
process_runs.  runsOf / warmOf give the per-worker counts as functions of
the worker index; the first argument of the recursion is the number of
workers still to emit. -/
def ParallelBenchmark.work_dist_loop (runsOf warmOf : ℕ → ℕ) :
    ℕ → ℕ → ℕ → List (ℕ × ℕ × ℕ × ℕ)
  | 0, _, _ => []
  | n + 1, i, run_offset =>
    (i, runsOf i, warmOf i, run_offset) ::
      ParallelBenchmark.work_dist_loop runsOf warmOf n (i + 1)
        (run_offset + runsOf i)

/-- ParallelBenchmark._calculate_work_distribution: runs_per_process =
number_of_runs // W, remainder = number_of_runs % W, and worker i receives
runs_per_process + (1 if i < remainder else 0); likewise for warmup runs;
run_offset starts at 0. -/
def ParallelBenchmark.calculate_work_distribution
    (number_of_runs warmup_runs num_processes : ℕ) : List (ℕ × ℕ × ℕ × ℕ) :=
  ParallelBenchmark.work_dist_loop
    (fun i => number_of_runs / num_processes +
      if i < number_of_runs % num_processes then 1 else 0)
    (fun i => warmup_runs / num_processes +
      if i < warmup_runs % num_processes then 1 else 0)
    num_processes 0 0

/-- The concurrency used by ramp-up step number step (0-based) in
StressBenchmark._run_ramp_up (stress.py, line 204):
current_connections = int((step + 1) / steps * max_connections) with
steps = 10.  Python int() truncates the float toward zero; on this
non-negative value that is the floor, modelled in exact arithmetic as
Nat division. -/
def StressBenchmark.ramp_up_connections (max_connections step : ℕ) : ℕ :=
  (step + 1) * max_connections / 10

/-- The per-step duration of StressBenchmark._run_ramp_up (stress.py,
line 200): step_duration = ramp_up_time / steps with steps = 10, Python
float division, modelled exactly.  ramp_up_time is the
StressTestConfig.ramp_up_time int, in seconds. -/
def StressBenchmark.step_duration (ramp_up_time : ℕ) : ℚ :=
  (ramp_up_time : ℚ) / 10

/-- The 10-step schedule of StressBenchmark._run_ramp_up (stress.py,
lines 199-221): for step in range(10), run a ParallelBenchmark with
num_processes = current_connections and
config.number_of_runs = current_connections * 10, then
time.sleep(step_duration) - the sleep argument is the constant
step_duration; nothing in the loop measures how long the step's parallel
run took, so no remainder is computed.  Each entry is
(current_connections, number_of_runs, slept_seconds) for that step. -/
def StressBenchmark.run_ramp_up_schedule (ramp_up_time max_connections : ℕ) :
    List (ℕ × ℕ × ℚ) :=
  (List.range 10).map (fun step =>
    let current_connections :=
      StressBenchmark.ramp_up_connections max_connections step
    (current_connections, current_connections * 10,
      StressBenchmark.step_duration ramp_up_time))

/-- The concurrency the spec prescribes for ramp-up step i:
round((i + 1) / 10 * max_concurrency), with the spec's rounding read as
ordinary rounding of the rational to the nearest integer. -/
def spec_ramp_up_connections (max_connections step : ℕ) : ℤ :=
  round (((step : ℚ) + 1) / 10 * (max_connections : ℚ))

/-- The sleep the claim prescribes at the end of a ramp-up step: the
remainder of the step duration after the step's work, which took elapsed
seconds of wall clock. -/
def spec_remaining_step_sleep (ramp_up_time : ℕ) (elapsed : ℚ) : ℚ :=
  StressBenchmark.step_duration ramp_up_time - elapsed

/-- duration_ms property of QueryExecution:
duration.total_seconds() * 1000. -/
def QueryExecution.duration_ms (e : QueryExecution) : ℚ :=
  e.duration * 1000

/-- numpy.percentile with the default linear interpolation, used by
StatisticalAnalyzer.analyze for q1, q3 (statistics.py, line 81): on the
ascending-sorted data, pos = (n - 1) * p / 100, and the result
interpolates between the elements at floor(pos) and floor(pos) + 1
(clamped to the last index) with weight pos - floor(pos). -/
def np_percentile (data : List ℚ) (p : ℚ) : ℚ :=
  let s := List.insertionSort (fun a b => a ≤ b) data
  let n := s.length
  if n = 0 then 0
  else
    let pos : ℚ := ((n : ℚ) - 1) * p / 100
    let lower := (⌊pos⌋).toNat
    let frac : ℚ := pos - (⌊pos⌋ : ℚ)
    let lo := s.getD lower 0
    let hi := s.getD (min (lower + 1) (n - 1)) 0
    lo + frac * (hi - lo)

/-- Modelled from the spec: StatisticalAnalyzer._detect_outliers_iqr is
invoked by StatisticalAnalyzer.analyze (statistics.py, line 89) but its
definition is absent from the source tree; the spec defines it as the
classic 1.5 x IQR fence on the 25th/75th percentiles, i.e. the data points
lying outside [q1 - 1.5 * iqr, q3 + 1.5 * iqr]. -/
def StatisticalAnalyzer.detect_outliers_iqr (data : List ℚ) (q1 q3 iqr : ℚ) :
    List ℚ :=
  data.filter (fun d =>
    decide (d < q1 - 3 / 2 * iqr) || decide (q3 + 3 / 2 * iqr < d))

/-- The slice of StatisticalSummary (statistics.py) that the embedding can
express exactly: the summary fields computed by square-root-free rational
arithmetic on the outlier path.  The remaining fields (mean, stddev,
skewness, confidence intervals, ...) involve irrational operations on
floats and external scipy calls and are not constrained by the claims. -/
structure StatisticalSummary where
  q1 : ℚ
  q3 : ℚ
  iqr : ℚ
  outliers : List ℚ
  deriving DecidableEq, Repr

/-- StatisticalAnalyzer.analyze (statistics.py, lines 37-109), outlier
path: durations = duration_ms of the successful executions; raise
ValueError if fewer than 2; q1, q3 = np.percentile(data, [25, 75]);
iqr = q3 - q1; outliers = _detect_outliers_iqr(data, q1, q3, iqr). -/
def StatisticalAnalyzer.analyze (executions : List QueryExecution) :
    Except String StatisticalSummary :=
  let durations := (executions.filter (fun e => e.success)).map
    QueryExecution.duration_ms
  if durations.length < 2 then
    .error "Need at least 2 successful executions for statistical analysis"
  else
    let q1 := np_percentile durations 25
    let q3 := np_percentile durations 75
    let iqr := q3 - q1
    .ok { q1 := q1, q3 := q3, iqr := iqr,
          outliers := StatisticalAnalyzer.detect_outliers_iqr durations q1 q3 iqr }

/-
Theorems.  Claim identifiers C1-C10 refer to the frozen claim list about
this code base.
-/

/-- Claim C7: constructing a benchmark with number_of_runs = 0,
warmup_runs = -1, timeout = 0 or retry_on_error = -1 fails validation in
the constructor, before any query executes, and a config that passes
validation satisfies number_of_runs >= 1, warmup_runs >= 0, timeout unset
or > 0, retry_on_error >= 0 and batch_size unset or > 0. -/
theorem config_validation_rejects_and_bounds :
    (BaseBenchmark.init { number_of_runs := 0 } =
      .error "number_of_runs must be at least 1")
    ∧ (BaseBenchmark.init { warmup_runs := -1 } =
      .error "warmup_runs cannot be negative")
    ∧ (BaseBenchmark.init { timeout := some 0 } =
      .error "timeout must be positive")
    ∧ (BaseBenchmark.init { retry_on_error := -1 } =
      .error "retry_on_error cannot be negative")
    ∧ (∀ c : BenchmarkConfig, c.validate = .ok () →
        1 ≤ c.number_of_runs ∧ 0 ≤ c.warmup_runs ∧
        (∀ t ∈ c.timeout, 0 < t) ∧ 0 ≤ c.retry_on_error ∧
        (∀ b ∈ c.batch_size, 0 < b)) := by
  refine ⟨rfl, rfl, rfl, rfl, ?_⟩
  intro c h
  simp only [BenchmarkConfig.validate] at h
  split_ifs at h with h1 h2 h3 h4 h5
  · refine ⟨by omega, by omega, ?_, by omega, ?_⟩
    · intro t ht
      cases hc : c.timeout with
      | none => rw [hc] at ht; exact absurd ht (by simp)
      | some t0 =>
        rw [hc] at ht h3
        simp only [decide_eq_true_eq] at h3
        obtain rfl : t0 = t := by simpa using ht
        exact not_le.mp h3
    · intro b hb
      cases hc : c.batch_size with
      | none => rw [hc] at hb; exact absurd hb (by simp)
      | some b0 =>
        rw [hc] at hb h5
        simp only [decide_eq_true_eq] at h5
        obtain rfl : b0 = b := by simpa using hb
        exact not_le.mp h5

/-- A concrete configuration that passes validation. -/
def example_config : BenchmarkConfig :=
  { number_of_runs := 5, warmup_runs := 0, timeout := some 2, retry_on_error := 0, batch_size := none }

/-- Witness for the validation-soundness part of the claim C7 theorem at a
concrete configuration that passes validation. -/
theorem config_validation_rejects_and_bounds_witness :
    (example_config.validate = .ok ())
    ∧ 1 ≤ example_config.number_of_runs := by
  refine ⟨rfl, ?_⟩
  exact (config_validation_rejects_and_bounds.2.2.2.2 example_config rfl).1

/-- Claim C8: add_execution fails with the InvalidState RuntimeError
exactly when the collector is not collecting - in particular on a fresh
collector (before start) and right after end - and between start and end
it appends the record to the execution list. -/
theorem metrics_add_execution_lifecycle :
    (∀ e c, (∃ m, MetricsCollector.add_execution e c = .error m) ↔
      c.is_collecting = false)
    ∧ MetricsCollector.init.is_collecting = false
    ∧ (∀ t c, (MetricsCollector.end_ t c).is_collecting = false)
    ∧ (∀ s c, (MetricsCollector.start s c).is_collecting = true)
    ∧ (∀ e c, c.is_collecting = true →
        MetricsCollector.add_execution e c =
          .ok { c with executions := c.executions ++ [e] }) := by
  refine ⟨?_, rfl, fun t c => rfl, fun s c => rfl, ?_⟩
  · intro e c
    cases hc : c.is_collecting <;>
      simp [MetricsCollector.add_execution, hc]
  · intro e c hc
    simp [MetricsCollector.add_execution, hc]

/-- Witness for the claim C8 theorem: on a started collector,
add_execution appends the record. -/
theorem metrics_add_execution_lifecycle_witness :
    MetricsCollector.add_execution ⟨0, 1, true, none⟩
      (MetricsCollector.start 0 MetricsCollector.init) =
      .ok { MetricsCollector.init with
            start_time := some 0
            is_collecting := true
            executions := [⟨0, 1, true, none⟩] } := by
  exact metrics_add_execution_lifecycle.2.2.2.2 ⟨0, 1, true, none⟩
    (MetricsCollector.start 0 MetricsCollector.init) rfl

/-- Claim C10: after end has finalized a collection, start returns the
collector to the collecting state without clearing the recorded
executions, a subsequent add_execution appends to the same list, and only
reset empties the execution list and the timestamps. -/
theorem metrics_restart_preserves_executions :
    ∀ (c : MetricsCollector) (t s : ℚ) (e : QueryExecution),
      (MetricsCollector.start s (MetricsCollector.end_ t c)).is_collecting = true
      ∧ (MetricsCollector.start s (MetricsCollector.end_ t c)).executions
          = c.executions
      ∧ MetricsCollector.add_execution e
          (MetricsCollector.start s (MetricsCollector.end_ t c)) =
          .ok { c with
                end_time := some t
                start_time := some s
                is_collecting := true
                executions := c.executions ++ [e] }
      ∧ (MetricsCollector.reset c).executions = []
      ∧ (MetricsCollector.reset c).start_time = none
      ∧ (MetricsCollector.reset c).end_time = none
      ∧ (MetricsCollector.reset c).is_collecting = false := by
  intro c t s e
  exact ⟨rfl, rfl, rfl, rfl, rfl, rfl, rfl⟩

/-- Claim C1 (code evaluation at the failing input): under the sequential
strategy a transient execution error is neither caught, retried, backed
off nor recorded - it propagates out of _execute_single_query as an
uncaught exception even with retry budget left - while under the
concurrent (async) strategy the claimed policy does hold: two transient
failures then success with retry_on_error = 2 yield exactly one record
with success = true after backoff sleeps of 0.5 s and 1.0 s, and
exhausting all attempts yields one failed record carrying the last
error. -/
theorem transient_retry_policy_eval :
    SingleThreadBenchmark.execute_loop
        (oracleOf [.transient "db glitch"]) 2 3 0 none = .raised "db glitch"
    ∧ (AsyncBenchmark.execute_query
        (oracleOf [.transient "boom1", .transient "boom2", .success 5]) 2 0).record.success
        = true
    ∧ (AsyncBenchmark.execute_query
        (oracleOf [.transient "boom1", .transient "boom2", .success 5]) 2 0).record.duration
        = 5
    ∧ (AsyncBenchmark.execute_query
        (oracleOf [.transient "boom1", .transient "boom2", .success 5]) 2 0).attempts
        = 3
    ∧ (AsyncBenchmark.execute_query
        (oracleOf [.transient "boom1", .transient "boom2", .success 5]) 2 0).sleeps.map
          backoff_seconds = [1 / 2, 1]
    ∧ (AsyncBenchmark.execute_query
        (oracleOf [.transient "b1", .transient "b2", .transient "b3"]) 2 0).record.success
        = false
    ∧ (AsyncBenchmark.execute_query
        (oracleOf [.transient "b1", .transient "b2", .transient "b3"]) 2 0).record.error
        = some "b3"
    ∧ (AsyncBenchmark.execute_query
        (oracleOf [.transient "b1", .transient "b2", .transient "b3"]) 2 0).attempts
        = 3 := by
  refine ⟨by decide, by decide, by decide, by decide, ?_, by decide, by decide, by decide⟩
  have hs : (AsyncBenchmark.execute_query
      (oracleOf [.transient "boom1", .transient "boom2", .success 5]) 2 0).sleeps
      = [1, 2] := by decide
  rw [hs]
  norm_num [backoff_seconds]

/-- Claim C2 (code evaluation at the failing input): under the sequential
strategy a timeout does NOT stop the retry loop - the only except clause
catches the timeout and falls through to the next iteration without ever
incrementing retry_count - so with retry_on_error = 0 a timed-out first
attempt is re-executed and a succeeding second attempt is recorded as
success = true (still carrying the stale timeout text), and under
persistent timeouts the loop never terminates and records nothing at all;
the concurrent (async) strategy does conform: a timeout breaks
immediately after one attempt with one failed timeout-classified
record. -/
theorem timeout_policy_eval :
    SingleThreadBenchmark.execute_loop
        (oracleOf [.timeout "canceling statement due to statement timeout", .success 5])
        0 2 0 none
      = .finished true
          (some "Query timeout: canceling statement due to statement timeout") 5 2
    ∧ (∀ fuel i err, SingleThreadBenchmark.execute_loop
        (fun _ => .timeout "canceling statement due to statement timeout") 0 fuel i err
        = .still_looping)
    ∧ (AsyncBenchmark.execute_query
        (oracleOf [.timeout "t", .success 5]) 0 0).record.success = false
    ∧ (AsyncBenchmark.execute_query
        (oracleOf [.timeout "t", .success 5]) 0 0).record.error
        = some "Query timeout: t"
    ∧ (AsyncBenchmark.execute_query
        (oracleOf [.timeout "t", .success 5]) 0 0).attempts = 1
    ∧ (AsyncBenchmark.execute_query
        (oracleOf [.timeout "t", .success 5]) 0 0).sleeps = [] := by
  refine ⟨by decide, ?_, by decide, by decide, by decide, by decide⟩
  intro fuel
  induction fuel with
  | zero => intro i err; rfl
  | succ n ih =>
    intro i err
    simpa [SingleThreadBenchmark.execute_loop] using ih (i + 1)
      (some ("Query timeout: " ++ "canceling statement due to statement timeout"))

/-- Claim C4 counterexample: a run whose first attempt failed transiently
and whose retry succeeded is recorded by the async strategy with
success = true while the error field still carries the first attempt's
error text, so the error field is not None exactly when success is
false. -/
theorem stale_error_on_retry_success :
    (AsyncBenchmark.execute_query
        (oracleOf [.transient "boom", .success 2]) 1 0).record.success = true
    ∧ (AsyncBenchmark.execute_query
        (oracleOf [.transient "boom", .success 2]) 1 0).record.error = some "boom" := by
  exact ⟨by decide, by decide⟩

/-- The async retry loop never makes the last elapsed value negative when
the database reports nonnegative elapsed times: every failure arm writes
query_start = query_end (elapsed 0) and the success arm writes the
oracle's elapsed value. -/
theorem async_loop_qdur_nonneg (oracle : ℕ → AttemptOutcome)
    (h : ∀ i d, oracle i = .success d → 0 ≤ d) (retry : ℕ) :
    ∀ fuel i err qdur sleeps, 0 ≤ qdur →
      0 ≤ (AsyncBenchmark.execute_loop oracle retry fuel i err qdur sleeps).qdur := by
  intro fuel
  induction fuel with
  | zero => intro i err qdur sleeps hq; exact hq
  | succ n ih =>
    intro i err qdur sleeps hq
    cases ho : oracle i with
    | success d => simpa [AsyncBenchmark.execute_loop, ho] using h i d ho
    | timeout m => simp [AsyncBenchmark.execute_loop, ho]
    | transient m =>
      by_cases hrc : i + 1 ≤ retry
      · simpa [AsyncBenchmark.execute_loop, ho, hrc] using
          ih (i + 1) (some m) 0 (sleeps ++ [i + 1]) le_rfl
      · simp [AsyncBenchmark.execute_loop, ho, hrc]
    | other m => simp [AsyncBenchmark.execute_loop, ho]

/-- If the async retry loop ends with success = False then its error
variable is set: every failing arm stores a message, and the only way to
reach the vacuous loop-exhaustion state is through a transient arm that
stored one. -/
theorem async_loop_error_isSome (oracle : ℕ → AttemptOutcome) (retry : ℕ) :
    ∀ fuel i err qdur sleeps, (fuel = 0 → err.isSome = true) →
      (AsyncBenchmark.execute_loop oracle retry fuel i err qdur sleeps).success = false →
      ((AsyncBenchmark.execute_loop oracle retry fuel i err qdur sleeps).error).isSome
        = true := by
  intro fuel
  induction fuel with
  | zero => intro i err qdur sleeps h0 _; exact h0 rfl
  | succ n ih =>
    intro i err qdur sleeps h0
    cases ho : oracle i with
    | success d => intro hf; simp [AsyncBenchmark.execute_loop, ho] at hf
    | timeout m => intro hf; simp [AsyncBenchmark.execute_loop, ho]
    | transient m =>
      by_cases hrc : i + 1 ≤ retry
      · intro hf
        have hstep : AsyncBenchmark.execute_loop oracle retry (n + 1) i err qdur sleeps
            = AsyncBenchmark.execute_loop oracle retry n (i + 1) (some m) 0
                (sleeps ++ [i + 1]) := by
          simp [AsyncBenchmark.execute_loop, ho, hrc]
        rw [hstep] at hf ⊢
        exact ih (i + 1) (some m) 0 (sleeps ++ [i + 1]) (fun _ => rfl) hf
      · intro hf; simp [AsyncBenchmark.execute_loop, ho, hrc]
    | other m => intro hf; simp [AsyncBenchmark.execute_loop, ho]

/-- The sequential retry loop can only build a QueryExecution by breaking
on success: every record it finishes with has success = True and its
elapsed value is one the database reported. -/
theorem single_loop_finished_success (oracle : ℕ → AttemptOutcome) (retry : ℕ) :
    ∀ fuel i err s e d a,
      SingleThreadBenchmark.execute_loop oracle retry fuel i err = .finished s e d a →
      s = true ∧ ∃ j, oracle j = .success d := by
  intro fuel
  induction fuel with
  | zero => intro i err s e d a hf; simp [SingleThreadBenchmark.execute_loop] at hf
  | succ n ih =>
    intro i err s e d a hf
    cases ho : oracle i with
    | success el =>
      simp only [SingleThreadBenchmark.execute_loop, ho,
        SingleLoopRes.finished.injEq] at hf
      obtain ⟨rfl, rfl, rfl, rfl⟩ := hf
      exact ⟨rfl, i, ho⟩
    | timeout m =>
      exact ih (i + 1) (some ("Query timeout: " ++ m)) s e d a
        (by simpa [SingleThreadBenchmark.execute_loop, ho] using hf)
    | transient m => simp [SingleThreadBenchmark.execute_loop, ho] at hf
    | other m => simp [SingleThreadBenchmark.execute_loop, ho] at hf

/-- Claim C4 (amended): for every record produced by the retry loops,
duration >= 0 whenever the clock reports nonnegative elapsed times, and
the error field is set whenever success is false; but error is not set
ONLY on failure - a success-after-failed-attempt record keeps the stale
error text of the last failed attempt (stale_error_on_retry_success), and
the sequential loop only ever finishes records with success = true. -/
theorem execution_record_invariants (oracle : ℕ → AttemptOutcome)
    (retry : ℕ) (rid : Int)
    (h : ∀ i d, oracle i = .success d → 0 ≤ d) :
    (0 ≤ (AsyncBenchmark.execute_query oracle retry rid).record.duration
     ∧ ((AsyncBenchmark.execute_query oracle retry rid).record.success = false →
        ((AsyncBenchmark.execute_query oracle retry rid).record.error).isSome = true))
    ∧ (∀ fuel i err s e d a,
        SingleThreadBenchmark.execute_loop oracle retry fuel i err = .finished s e d a →
        s = true ∧ 0 ≤ d) := by
  refine ⟨⟨?_, ?_⟩, ?_⟩
  · exact async_loop_qdur_nonneg oracle h retry (retry + 1) 0 none 0 [] le_rfl
  · exact async_loop_error_isSome oracle retry (retry + 1) 0 none 0 [] (by simp)
  · intro fuel i err s e d a hf
    obtain ⟨hs, j, hj⟩ := single_loop_finished_success oracle retry fuel i err s e d a hf
    exact ⟨hs, h j d hj⟩

/-- Witness for the claim C4 theorem at a concrete always-succeeding
oracle. -/
theorem execution_record_invariants_witness :
    0 ≤ (AsyncBenchmark.execute_query (fun _ => .success 2) 3 0).record.duration := by
  exact (execution_record_invariants (fun _ => .success 2) 3 0
    (by intro i d hd; cases hd; norm_num)).1.1

/-- Appending one keyed entry per iteration of a fold builds the map of
the iterated list. -/
theorem foldl_append_singleton {α β : Type} (g : α → β) :
    ∀ (l : List α) (acc : List β),
      l.foldl (fun a p => a ++ [g p]) acc = acc ++ l.map g := by
  intro l
  induction l with
  | nil => intro acc; simp
  | cons hd tl ih => intro acc; simp [ih, List.append_assoc]

/-- Claim C3: for every non-empty duration list, _calculate_percentiles
reports, for each level p in {25, 50, 75, 90, 95, 99, 99.9} in order,
exactly the element of the ascending-sorted durations at index
floor(n * p / 100) clamped to n - 1 (nearest rank, no interpolation),
where the sorted list is ascending and a permutation of the input. -/
theorem percentiles_nearest_rank (ds : List ℚ) (h : ds ≠ []) :
    BenchmarkResult.calculate_percentiles ds =
      percentile_levels.map (fun p =>
        (p, spec_nearest_rank (List.insertionSort (fun a b => a ≤ b) ds) p))
    ∧ (List.insertionSort (fun a b => a ≤ b) ds).Sorted (fun a b => a ≤ b)
    ∧ List.Perm (List.insertionSort (fun a b => a ≤ b) ds) ds := by
  refine ⟨?_, List.sorted_insertionSort _ ds, List.perm_insertionSort _ ds⟩
  have hne : ds.isEmpty = false := by simpa [List.isEmpty_iff] using h
  simp only [BenchmarkResult.calculate_percentiles, hne, Bool.false_eq_true,
    if_false]
  exact (foldl_append_singleton _ percentile_levels []).trans
    (by simp [spec_nearest_rank])

/-- Ten distinct durations for exercising the percentile rule. -/
def d10 : List ℚ := [50, 10, 90, 30, 70, 20, 100, 40, 80, 60]

/-- Witness for the claim C3 theorem: on 10 successful durations the
reported p50 is the element at 0-indexed sorted position
floor(10 * 50 / 100) = 5, the 6th-smallest value. -/
theorem percentiles_nearest_rank_witness :
    BenchmarkResult.calculate_percentiles d10 =
      percentile_levels.map (fun p =>
        (p, spec_nearest_rank (List.insertionSort (fun a b => a ≤ b) d10) p))
    ∧ spec_nearest_rank (List.insertionSort (fun a b => a ≤ b) d10) 50 = 60 := by
  refine ⟨(percentiles_nearest_rank d10 (by decide)).1, ?_⟩
  have hs : List.insertionSort (fun a b => a ≤ b) d10
      = [10, 20, 30, 40, 50, 60, 70, 80, 90, 100] := by decide
  rw [spec_nearest_rank, hs]
  norm_num
  decide

/-- Claim C9 counterexample, both divergences at concrete inputs.
Concurrency: at max_concurrency = 7 the first ramp-up step runs
int(1/10 * 7) = 0 parallel connections, not round(1/10 * 7) = 1 as the
claim states.  Sleep: with ramp_up_time = 20 (step_duration = 2 s) a step
whose parallel run took 1 s of wall clock is followed by
time.sleep(step_duration) = 2 s, not the claimed remainder
step_duration - elapsed = 1 s; the schedule entry (0, 0, 2) for step 0
exhibits both at once. -/
theorem ramp_up_schedule_counterexample :
    StressBenchmark.ramp_up_connections 7 0 = 0
    ∧ spec_ramp_up_connections 7 0 = 1
    ∧ ¬((StressBenchmark.ramp_up_connections 7 0 : ℤ)
        = spec_ramp_up_connections 7 0)
    ∧ (StressBenchmark.run_ramp_up_schedule 20 7)[0]? = some (0, 0, 2)
    ∧ spec_remaining_step_sleep 20 1 = 1
    ∧ ¬(StressBenchmark.step_duration 20 = spec_remaining_step_sleep 20 1) := by
  have hr : spec_ramp_up_connections 7 0 = 1 := by
    rw [spec_ramp_up_connections]
    norm_num [round_eq]
  have hd : StressBenchmark.step_duration 20 = 2 := by
    rw [StressBenchmark.step_duration]
    norm_num
  have hs : spec_remaining_step_sleep 20 1 = 1 := by
    rw [spec_remaining_step_sleep, hd]
    norm_num
  refine ⟨by decide, hr, ?_, ?_, hs, ?_⟩
  · rw [hr]
    decide
  · simp only [StressBenchmark.run_ramp_up_schedule, List.getElem?_map,
      List.getElem?_range (by decide : (0 : ℕ) < 10), Option.map_some, hd]
    rfl
  · rw [hd, hs]
    norm_num

/-- Claim C9 (amended): ramp-up always performs exactly 10 steps, and step
number step (0-based) runs the process-parallel scheduler at concurrency
int((step + 1) / 10 * max_concurrency) - integer truncation, i.e. the
floor, not rounding - executing current_concurrency * 10 measured runs,
and then sleeps the full step duration ramp_up_time / 10, independent of
how long the step's work took (no remainder is computed). -/
theorem ramp_up_schedule_floor (ramp_up_time max_connections step : ℕ)
    (h : step < 10) :
    (StressBenchmark.run_ramp_up_schedule ramp_up_time max_connections).length = 10
    ∧ (StressBenchmark.run_ramp_up_schedule ramp_up_time max_connections)[step]? =
        some ((step + 1) * max_connections / 10,
              ((step + 1) * max_connections / 10) * 10,
              (ramp_up_time : ℚ) / 10)
    ∧ (∀ elapsed : ℚ,
        ((StressBenchmark.run_ramp_up_schedule ramp_up_time max_connections)[step]?).map
          (fun it => it.2.2)
        = some (spec_remaining_step_sleep ramp_up_time elapsed + elapsed)) := by
  refine ⟨?_, ?_, ?_⟩
  · simp [StressBenchmark.run_ramp_up_schedule]
  · simp [StressBenchmark.run_ramp_up_schedule, List.getElem?_map,
      List.getElem?_range h, StressBenchmark.ramp_up_connections,
      StressBenchmark.step_duration]
  · intro elapsed
    simp [StressBenchmark.run_ramp_up_schedule, List.getElem?_map,
      List.getElem?_range h, spec_remaining_step_sleep]

/-- Witness for the claim C9 theorem: with ramp_up_time = 20 and
max_concurrency = 25, step 3 runs at concurrency 4 * 25 / 10 = 10,
executes 100 runs, and then sleeps the full 2-second step duration (for
work that took 1/2 s, that is the 3/2 s remainder plus the 1/2 s already
spent). -/
theorem ramp_up_schedule_floor_witness :
    (StressBenchmark.run_ramp_up_schedule 20 25)[3]? = some (10, 100, 2)
    ∧ ((StressBenchmark.run_ramp_up_schedule 20 25)[3]?).map (fun it => it.2.2)
        = some (spec_remaining_step_sleep 20 (1 / 2) + 1 / 2) := by
  have h := ramp_up_schedule_floor 20 25 3 (by decide)
  constructor
  · rw [h.2.1]
    norm_num
  · exact h.2.2 (1 / 2)

/-- Sum of f over the index interval [i, i + n), in the order the
distribution loop visits it. -/
def sum_counts (f : ℕ → ℕ) : ℕ → ℕ → ℕ
  | 0, _ => 0
  | n + 1, i => f i + sum_counts f n (i + 1)

/-- The distribution loop emits one work item per worker. -/
theorem work_dist_loop_length (f g : ℕ → ℕ) :
    ∀ n i off, (ParallelBenchmark.work_dist_loop f g n i off).length = n := by
  intro n
  induction n with
  | zero => intro i off; rfl
  | succ n ih => intro i off; simp [ParallelBenchmark.work_dist_loop, ih]

/-- Every emitted work item carries the per-worker run count prescribed by
the count function at its worker index. -/
theorem work_dist_loop_runs (f g : ℕ → ℕ) :
    ∀ n i off it, it ∈ ParallelBenchmark.work_dist_loop f g n i off →
      it.2.1 = f it.1 := by
  intro n
  induction n with
  | zero => intro i off it hit; simp [ParallelBenchmark.work_dist_loop] at hit
  | succ n ih =>
    intro i off it hit
    rcases (List.mem_cons).mp hit with h | h
    · subst h; rfl
    · exact ih (i + 1) (off + f i) it h

/-- The run counts of the emitted work items sum to the sum of the count
function over the visited workers. -/
theorem work_dist_loop_sum (f g : ℕ → ℕ) :
    ∀ n i off, ((ParallelBenchmark.work_dist_loop f g n i off).map
      (fun it => it.2.1)).sum = sum_counts f n i := by
  intro n
  induction n with
  | zero => intro i off; rfl
  | succ n ih =>
    intro i off
    simp [ParallelBenchmark.work_dist_loop, sum_counts, ih]

/-- Concatenating each work item's run_id range [run_offset,
run_offset + runs) yields one contiguous range: the running offset leaves
no gap and no overlap between consecutive workers. -/
theorem work_dist_loop_flatten (f g : ℕ → ℕ) :
    ∀ n i off, ((ParallelBenchmark.work_dist_loop f g n i off).map
      (fun it => List.range' it.2.2.2 it.2.1)).flatten
      = List.range' off (sum_counts f n i) := by
  intro n
  induction n with
  | zero => intro i off; rfl
  | succ n ih =>
    intro i off
    simp only [ParallelBenchmark.work_dist_loop, List.map_cons,
      List.flatten_cons, sum_counts, ih (i + 1) (off + f i)]
    rw [List.range'_append_1, Nat.add_comm]

/-- Closed form for the sum of base-plus-one-for-the-first-rem counts over
an index window. -/
theorem sum_counts_const_ite (base rem : ℕ) :
    ∀ n i, sum_counts (fun t => base + if t < rem then 1 else 0) n i
      = n * base + (min rem (i + n) - min rem i) := by
  intro n
  induction n with
  | zero => intro i; simp [sum_counts]
  | succ n ih =>
    intro i
    simp only [sum_counts, ih (i + 1)]
    rw [Nat.succ_mul]
    split_ifs with h <;> omega

/-- Claim C5: for W >= 1 workers, _calculate_work_distribution emits W
items; worker i receives N / W runs plus one extra iff i < N % W (so the
first N % W workers get one more); the per-worker counts sum to N; and the
contiguous run_id ranges [run_offset, run_offset + runs) built from the
running offset partition [0, N) in order, with no overlap or gap. -/
theorem work_distribution_partition (N warm W : ℕ) (hW : 0 < W) :
    (ParallelBenchmark.calculate_work_distribution N warm W).length = W
    ∧ (∀ it ∈ ParallelBenchmark.calculate_work_distribution N warm W,
        it.2.1 = N / W + if it.1 < N % W then 1 else 0)
    ∧ ((ParallelBenchmark.calculate_work_distribution N warm W).map
        (fun it => it.2.1)).sum = N
    ∧ ((ParallelBenchmark.calculate_work_distribution N warm W).map
        (fun it => List.range' it.2.2.2 it.2.1)).flatten = List.range N := by
  have hsum : sum_counts (fun t => N / W + if t < N % W then 1 else 0) W 0 = N := by
    rw [sum_counts_const_ite]
    have h1 : min (N % W) W = N % W := min_eq_left (le_of_lt (Nat.mod_lt N hW))
    simp only [Nat.zero_add, Nat.min_zero, Nat.sub_zero, h1]
    exact Nat.div_add_mod N W
  refine ⟨work_dist_loop_length _ _ W 0 0,
    fun it hit => work_dist_loop_runs _ _ W 0 0 it hit, ?_, ?_⟩
  · rw [ParallelBenchmark.calculate_work_distribution, work_dist_loop_sum, hsum]
  · rw [ParallelBenchmark.calculate_work_distribution, work_dist_loop_flatten, hsum,
      List.range_eq_range']

/-- Witness for the claim C5 theorem at number_of_runs = 103 and
num_processes = 10: exactly 3 workers get 11 runs, 7 workers get 10 runs,
the counts sum to 103 and the run_id ranges tile [0, 103). -/
theorem work_distribution_partition_witness :
    (ParallelBenchmark.calculate_work_distribution 103 0 10).length = 10
    ∧ ((ParallelBenchmark.calculate_work_distribution 103 0 10).map
        (fun it => it.2.1)).sum = 103
    ∧ ((ParallelBenchmark.calculate_work_distribution 103 0 10).countP
        (fun it => it.2.1 == 11)) = 3
    ∧ ((ParallelBenchmark.calculate_work_distribution 103 0 10).countP
        (fun it => it.2.1 == 10)) = 7
    ∧ ((ParallelBenchmark.calculate_work_distribution 103 0 10).map
        (fun it => List.range' it.2.2.2 it.2.1)).flatten = List.range 103 := by
  have h := work_distribution_partition 103 0 10 (by decide)
  exact ⟨h.1, h.2.2.1, by decide, by decide, h.2.2.2⟩

/-- Claim C6: on a result with at least 2 successful durations, analyze
returns a StatisticalSummary whose outliers are exactly the successful
durations lying strictly outside the fence
[q1 - 1.5 * iqr, q3 + 1.5 * iqr], where q1 and q3 are the 25th and 75th
percentiles of the successful durations (numpy linear interpolation) and
iqr = q3 - q1. -/
theorem analyze_outliers_iqr_fence (executions : List QueryExecution)
    (h : 2 ≤ ((executions.filter (fun e => e.success)).map
      QueryExecution.duration_ms).length) :
    ∃ s, StatisticalAnalyzer.analyze executions = .ok s
      ∧ s.q1 = np_percentile ((executions.filter (fun e => e.success)).map
          QueryExecution.duration_ms) 25
      ∧ s.q3 = np_percentile ((executions.filter (fun e => e.success)).map
          QueryExecution.duration_ms) 75
      ∧ s.iqr = s.q3 - s.q1
      ∧ (∀ d : ℚ, d ∈ s.outliers ↔
          d ∈ (executions.filter (fun e => e.success)).map QueryExecution.duration_ms
          ∧ (d < s.q1 - 3 / 2 * s.iqr ∨ s.q3 + 3 / 2 * s.iqr < d)) := by
  have hlt : ¬ (((executions.filter (fun e => e.success)).map
      QueryExecution.duration_ms).length < 2) := by omega
  simp only [StatisticalAnalyzer.analyze, hlt, if_false]
  refine ⟨_, rfl, rfl, rfl, rfl, ?_⟩
  intro d
  simp [StatisticalAnalyzer.detect_outliers_iqr, List.mem_filter,
    decide_eq_true_eq]

/-- Four successful executions whose largest duration lies far outside the
IQR fence. -/
def example_execs : List QueryExecution :=
  [⟨0, 1, true, none⟩, ⟨1, 2, true, none⟩, ⟨2, 3, true, none⟩, ⟨3, 100, true, none⟩]

/-- Witness for the claim C6 theorem at four concrete successful
executions. -/
theorem analyze_outliers_iqr_fence_witness :
    ∃ s, StatisticalAnalyzer.analyze example_execs = .ok s
      ∧ s.q1 = np_percentile ((example_execs.filter (fun e => e.success)).map
          QueryExecution.duration_ms) 25
      ∧ s.q3 = np_percentile ((example_execs.filter (fun e => e.success)).map
          QueryExecution.duration_ms) 75
      ∧ s.iqr = s.q3 - s.q1
      ∧ (∀ d : ℚ, d ∈ s.outliers ↔
          d ∈ (example_execs.filter (fun e => e.success)).map QueryExecution.duration_ms
          ∧ (d < s.q1 - 3 / 2 * s.iqr ∨ s.q3 + 3 / 2 * s.iqr < d)) := by
  exact analyze_outliers_iqr_fence example_execs (by decide)
